import Mathlib

/-!
Verification of the scheduler-service constraint-model builder and result
reducer (`models.py`, `scheduler.py`, `main.py`).

Shallow embedding conventions:
* A date string `"YYYY-MM-DD"` is modelled as the `Fecha` structure holding
  the three numeric components.
* A time-of-day string `"HH:MM"` is modelled as the `HoraMin` structure
  holding the two numeric components; `hora_a_minutos` (models.py) becomes
  `HoraMin.minutos`, and `int(turno.hora_inicio.split(':')[0])`
  (scheduler.py:201) becomes the `h` field.
* Python `float` fields that the code only feeds through exact arithmetic
  (`duracion_horas`, the hour ceilings) are modelled as `ℚ`; the single
  floating-point expression `varianza ** 0.5` is modelled as `Real.sqrt`.
* Python `datetime.weekday()` (0 = Monday … 6 = Sunday) is embedded as
  `pyWeekday`, computed with Zeller's congruence; `isoweekday()` is
  `pyWeekday + 1`.
* Python dicts appear as association lists; `dict[k] = v` is the
  overwrite-or-append update used by the embeddings below.
-/

/-- A calendar date, the model of a `"YYYY-MM-DD"` string. -/
structure Fecha where
  year : Nat
  month : Nat
  day : Nat
deriving DecidableEq, Repr

/-- A time of day, the model of an `"HH:MM"` string. -/
structure HoraMin where
  h : Nat
  m : Nat
deriving DecidableEq, Repr

/-- `hora_a_minutos` (models.py:82-85): minutes since midnight. -/
def HoraMin.minutos (t : HoraMin) : Nat :=
  t.h * 60 + t.m

/-- Zeller's congruence; result 0 = Saturday, 1 = Sunday, …, 6 = Friday.
Used to embed Python's `datetime` weekday computations. -/
def zellerH (f : Fecha) : Nat :=
  let Y := if f.month < 3 then f.year - 1 else f.year
  let M := if f.month < 3 then f.month + 12 else f.month
  let K := Y % 100
  let J := Y / 100
  (f.day + (13 * (M + 1)) / 5 + K + K / 4 + J / 4 + 5 * J) % 7

/-- Python `datetime.weekday()`: 0 = Monday, …, 6 = Sunday. -/
def pyWeekday (f : Fecha) : Nat :=
  (zellerH f + 5) % 7

/-- Python `datetime.isoweekday()`: 1 = Monday, …, 7 = Sunday
(models.py:69). -/
def isoWeekday (f : Fecha) : Nat :=
  pyWeekday f + 1

/-- `TipoTurno` (models.py:9-13). -/
inductive TipoTurno where
  | laboral
  | guardia
  | festivo
deriving DecidableEq, Repr

/-- `Turno` (models.py:38-47).  `hora_inicio`/`hora_fin` are `"HH:MM"`
strings in the source, modelled as `HoraMin`; `fecha_especifica` is an
optional `"YYYY-MM-DD"` string, modelled as `Option Fecha` (`None` and the
never-occurring empty string are both falsy, hence `none`). -/
structure Turno where
  id : String
  nombre : String
  hora_inicio : HoraMin
  hora_fin : HoraMin
  duracion_horas : ℚ
  tipo : TipoTurno
  dias_semana_validos : List Nat := []
  fecha_especifica : Option Fecha := none
deriving DecidableEq, Repr

/-- `Turno.es_valido_para_dia` (models.py:49-70).  A fixed-date (guard)
template is valid exactly on its date; otherwise an empty weekday list
means "valid on any day", and a non-empty list is tested against the ISO
weekday. -/
def Turno.esValidoParaDia (t : Turno) (fecha : Fecha) : Bool :=
  match t.fecha_especifica with
  | some fe => fecha = fe
  | none =>
    if t.dias_semana_validos.isEmpty then
      true
    else
      (isoWeekday fecha) ∈ t.dias_semana_validos

/-- `Turno.se_solapa_con` (models.py:72-93): overlap test
`not (fin1 <= inicio2 or fin2 <= inicio1)` on minutes since midnight. -/
def Turno.seSolapaCon (t : Turno) (otro : Turno) : Bool :=
  let inicio1 := t.hora_inicio.minutos
  let fin1 := t.hora_fin.minutos
  let inicio2 := otro.hora_inicio.minutos
  let fin2 := otro.hora_fin.minutos
  !(decide (fin1 ≤ inicio2) || decide (fin2 ≤ inicio1))

/-- `Empleado` (models.py:24-34).  The hour ceilings are `float` in the
source, modelled as `ℚ`. -/
structure Empleado where
  uid : String
  nombre : String
  email : String
  horas_maximas_diarias : ℚ
  horas_maximas_semanales : ℚ
  horas_maximas_mensuales : ℚ
  festivos_personales : List Fecha := []
  turnos_favoritos : List String := []
  dias_libres_preferidos : List Nat := []
deriving DecidableEq, Repr

/-- One per-slot coverage rule.  No class in the repository declares it;
its fields are exactly the attributes scheduler.py:204-209 reads
(`dias_semana`, `hora_inicio`, `hora_fin`, `trabajadores_minimos`), with
the integer types documented in firebase_client.py:194-195
(`diasSemana` uses 0 = Sunday … 6 = Saturday, hours are whole numbers). -/
structure ConfiguracionCobertura where
  dias_semana : List Nat
  hora_inicio : ℤ
  hora_fin : ℤ
  trabajadores_minimos : ℤ
deriving DecidableEq, Repr

/-- `ConfiguracionTurnos` (models.py:96-100).  The dataclass declares only
`turnos` and `cobertura_minima` (`cobertura_minima` is a string-keyed dict
of ints; the embedding keeps it as an association list).  scheduler.py:189
additionally reads the attribute `configuraciones_cobertura`, which no
code in the repository ever assigns; the runtime attribute table is
therefore modelled by an extra `Option` field that is `none` on every
instance the repository constructs (see `parsearConfiguracionTurnos`), a
`none` lookup standing for Python's `AttributeError`. -/
structure ConfiguracionTurnos where
  turnos : List (String × Turno)
  cobertura_minima : List (String × ℤ)
  configuraciones_cobertura : Option (List ConfiguracionCobertura)
deriving DecidableEq, Repr

/-- `Restricciones` (models.py:104-110). -/
structure Restricciones where
  descanso_minimo_horas : ℤ := 12
  dias_descanso_semana : ℤ := 1
  horas_maximas_semanales : ℚ := 40
  permitir_horas_extra : Bool := false
  max_turnos_consecutivos : ℤ := 7
deriving DecidableEq, Repr

/-- Association-list lookup, the model of Python `dict[key]` /
`dict.get` / `key in dict`. -/
def buscar {κ α : Type} [DecidableEq κ] (m : List (κ × α)) (k : κ) :
    Option α :=
  match m with
  | [] => none
  | (k', v) :: rest => if k' = k then some v else buscar rest k

/-- Python `dict.get(key, default)`. -/
def buscarD {κ α : Type} [DecidableEq κ] (m : List (κ × α)) (k : κ)
    (d : α) : α :=
  (buscar m k).getD d

/-- Association-list store, the model of Python `dict[key] = value`:
overwrite an existing entry in place, otherwise append at the end
(Python dicts preserve insertion order). -/
def actualizar {κ α : Type} [DecidableEq κ] (m : List (κ × α)) (k : κ)
    (v : α) : List (κ × α) :=
  match m with
  | [] => [(k, v)]
  | (k', v') :: rest =>
    if k' = k then (k, v) :: rest else (k', v') :: actualizar rest k v

/-- First per-slot rule matching the weekday/hour, in declaration order
(the `for config in configuraciones` loop, scheduler.py:204-209). -/
def buscarConfigCobertura (configuraciones : List ConfiguracionCobertura)
    (dia_semana : Nat) (hora_inicio : ℤ) : Option ConfiguracionCobertura :=
  match configuraciones with
  | [] => none
  | c :: rest =>
    if dia_semana ∈ c.dias_semana ∧ c.hora_inicio ≤ hora_inicio ∧ hora_inicio < c.hora_fin then
      some c
    else
      buscarConfigCobertura rest dia_semana hora_inicio

/-- `SchedulerORTools._obtener_trabajadores_necesarios`
(scheduler.py:177-212).  The first statement reads
`self.config_turnos.configuraciones_cobertura`; on every
`ConfiguracionTurnos` the repository builds that attribute is absent, so
the call raises `AttributeError`, modelled as `Except.error`.  When the
attribute is present: an empty rule list falls back to the global floor
`cobertura_minima.get('trabajadoresMinimos', 1)`; otherwise the weekday is
converted from Python's 0=Monday to the rules' 0=Sunday encoding, the
shift's start hour is taken, and the first matching rule's headcount (or
the floor, when none matches) is returned. -/
def obtenerTrabajadoresNecesarios (cfg : ConfiguracionTurnos)
    (fecha : Fecha) (turno : Turno) : Except String ℤ :=
  match cfg.configuraciones_cobertura with
  | none =>
    Except.error "AttributeError: ConfiguracionTurnos object has no attribute configuraciones_cobertura"
  | some configuraciones =>
    if configuraciones.isEmpty then
      Except.ok (buscarD cfg.cobertura_minima "trabajadoresMinimos" 1)
    else
      let dia_semana := (pyWeekday fecha + 1) % 7
      let hora_inicio : ℤ := turno.hora_inicio.h
      match buscarConfigCobertura configuraciones dia_semana hora_inicio with
      | some c => Except.ok c.trabajadores_minimos
      | none => Except.ok (buscarD cfg.cobertura_minima "trabajadoresMinimos" 1)

/-- Raw per-shift data read from the configuration dict
(main.py:370-381); each field is optional, mirroring `dict.get` with a
default. -/
structure TurnoInfo where
  nombre : Option String := none
  horaInicio : Option HoraMin := none
  horaFin : Option HoraMin := none
  duracionHoras : Option ℚ := none
  tipo : Option String := none
deriving DecidableEq, Repr

/-- `TipoTurno(tipo_str) if tipo_str in [...] else TipoTurno.LABORAL`
(main.py:371-372). -/
def parsearTipo (s : String) : TipoTurno :=
  if s = "laboral" then TipoTurno.laboral
  else if s = "guardia" then TipoTurno.guardia
  else if s = "festivo" then TipoTurno.festivo
  else TipoTurno.laboral

/-- `_parsear_configuracion_turnos` (main.py:356-386).  Each `Turno` is
built without `dias_semana_validos` and without `fecha_especifica`, so the
dataclass defaults (`[]`, `None`) apply; the constructed
`ConfiguracionTurnos` carries only `turnos` and `cobertura_minima`, hence
the unset scheduler attribute `configuraciones_cobertura` is `none`. -/
def parsearConfiguracionTurnos (turnosData : List (String × TurnoInfo))
    (coberturaData : List (String × ℤ)) : ConfiguracionTurnos :=
  { turnos := turnosData.map (fun p =>
      (p.1,
        { id := p.1
          nombre := p.2.nombre.getD ""
          hora_inicio := p.2.horaInicio.getD ⟨9, 0⟩
          hora_fin := p.2.horaFin.getD ⟨17, 0⟩
          duracion_horas := p.2.duracionHoras.getD 8
          tipo := parsearTipo (p.2.tipo.getD "laboral")
          dias_semana_validos := []
          fecha_especifica := none }))
    cobertura_minima := coberturaData
    configuraciones_cobertura := none }

/-- A solver valuation of the boolean decision variables
`shifts[(emp_idx, dia, turno_id)]`. -/
def Solucion : Type :=
  Nat × Fecha × String → Bool

/-- `_crear_variables` (scheduler.py:158-175): one variable per
(employee index, day, shift id) with the shift valid on the day, in
employee-major, then day, then catalog order — the insertion order of the
`self.shifts` dict. -/
def crearVariables (numEmp : Nat) (dias : List Fecha)
    (turnos : List (String × Turno)) : List (Nat × Fecha × String) :=
  (List.range numEmp).flatMap (fun e =>
    dias.flatMap (fun dia =>
      turnos.filterMap (fun p =>
        if p.2.esValidoParaDia dia then some (e, dia, p.1) else none)))

/-- One emitted coverage constraint
`sum(empleados_asignados) == trabajadores_necesarios`
(scheduler.py:243), with the employee range the variables were collected
over. -/
structure RestriccionCobertura where
  dia : Fecha
  turno_id : String
  numEmp : Nat
  requeridos : ℤ
deriving DecidableEq, Repr

/-- Inner loop of `_aplicar_restricciones_cobertura`
(scheduler.py:229-244) over the day's valid shifts: resolve the headcount
(which may raise, see `obtenerTrabajadoresNecesarios`), then emit the
equality constraint when at least one employee variable exists
(`if empleados_asignados`, i.e. `0 < numEmp`). -/
def restriccionesCoberturaLista (cfg : ConfiguracionTurnos) (numEmp : Nat)
    (dia : Fecha) :
    List (String × Turno) → Except String (List RestriccionCobertura)
  | [] => Except.ok []
  | (tid, t) :: rest =>
    match obtenerTrabajadoresNecesarios cfg dia t with
    | Except.error e => Except.error e
    | Except.ok r =>
      match restriccionesCoberturaLista cfg numEmp dia rest with
      | Except.error e => Except.error e
      | Except.ok cs =>
        Except.ok ((if 0 < numEmp then [⟨dia, tid, numEmp, r⟩] else []) ++ cs)

/-- `_aplicar_restricciones_cobertura` (scheduler.py:214-244): for every
day of the month, one equality constraint per valid shift. -/
def aplicarRestriccionesCobertura (cfg : ConfiguracionTurnos)
    (numEmp : Nat) :
    List Fecha → Except String (List RestriccionCobertura)
  | [] => Except.ok []
  | dia :: rest =>
    match restriccionesCoberturaLista cfg numEmp dia
      (cfg.turnos.filter (fun p => p.2.esValidoParaDia dia)) with
    | Except.error e => Except.error e
    | Except.ok cs =>
      match aplicarRestriccionesCobertura cfg numEmp rest with
      | Except.error e => Except.error e
      | Except.ok more => Except.ok (cs ++ more)

/-- Number of employees a solution assigns to shift `tid` on `dia`
(the value of `sum(empleados_asignados)`). -/
def contarAsignados (sol : Solucion) (numEmp : Nat) (dia : Fecha)
    (tid : String) : Nat :=
  ((List.range numEmp).filter (fun e => sol (e, dia, tid))).length

/-- Meaning of one coverage constraint under a valuation. -/
def satisfaceCobertura (sol : Solucion) (c : RestriccionCobertura) : Prop :=
  (contarAsignados sol c.numEmp c.dia c.turno_id : ℤ) = c.requeridos

/-- Python `int()` applied to a float: truncation toward zero
(scheduler.py:284,289,301,306,315,320). -/
def pyInt (q : ℚ) : ℤ :=
  if 0 ≤ q then ⌊q⌋ else -⌊-q⌋

/-- `_agrupar_por_semanas` inner loop (scheduler.py:526-536): push the day
onto the current week and close the week after a Sunday
(`weekday() == 6`) or at the month's last day. -/
def agruparAux (ultimo : Fecha) : List Fecha → List Fecha → List (List Fecha)
  | [], _ => []
  | d :: rest, cur =>
    let cur' := cur ++ [d]
    if pyWeekday d = 6 ∨ d = ultimo then
      cur' :: agruparAux ultimo rest []
    else
      agruparAux ultimo rest cur'

/-- `_agrupar_por_semanas` (scheduler.py:513-537). -/
def agruparPorSemanas (dias : List Fecha) : List (List Fecha) :=
  match dias.getLast? with
  | none => []
  | some ultimo => agruparAux ultimo dias []

/-- Which hour ceiling a hard hour constraint enforces. -/
inductive AlcanceHoras where
  | diaria (dia : Fecha)
  | semanal (semana : List Fecha)
  | mensual
deriving DecidableEq, Repr

/-- One emitted hour-cap constraint
`sum(shift * int(duracion)) <= int(ceiling)`
(scheduler.py:288-290, 305-307, 319-321): the variables in scope with
their truncated integer coefficients, and the truncated bound. -/
structure RestriccionHoras where
  emp : Nat
  alcance : AlcanceHoras
  terminos : List ((Fecha × String) × ℤ)
  limite : ℤ
deriving DecidableEq, Repr

/-- The terms `shifts[(e, dia, turno_id)] * int(turno.duracion_horas)`
collected over the given days (scheduler.py:280-285 and analogues). -/
def terminosHoras (dias : List Fecha) (turnos : List (String × Turno)) :
    List ((Fecha × String) × ℤ) :=
  dias.flatMap (fun dia =>
    turnos.filterMap (fun p =>
      if p.2.esValidoParaDia dia then
        some ((dia, p.1), pyInt p.2.duracion_horas)
      else none))

/-- `_aplicar_restricciones_horas_maximas` (scheduler.py:271-321) for one
employee: a daily constraint per day with variables, a weekly constraint
per week group with variables, and one monthly constraint when any
variable exists. -/
def restriccionesHorasEmpleado (e : Nat) (empleado : Empleado)
    (dias : List Fecha) (turnos : List (String × Turno)) :
    List RestriccionHoras :=
  (dias.filterMap (fun dia =>
    let ts := terminosHoras [dia] turnos
    if ts.isEmpty then none
    else some ⟨e, AlcanceHoras.diaria dia, ts, pyInt empleado.horas_maximas_diarias⟩))
  ++ ((agruparPorSemanas dias).filterMap (fun semana =>
    let ts := terminosHoras semana turnos
    if ts.isEmpty then none
    else some ⟨e, AlcanceHoras.semanal semana, ts, pyInt empleado.horas_maximas_semanales⟩))
  ++ (let ts := terminosHoras dias turnos
    if ts.isEmpty then []
    else [⟨e, AlcanceHoras.mensual, ts, pyInt empleado.horas_maximas_mensuales⟩])

/-- `_aplicar_restricciones_horas_maximas` over the whole roster. -/
def aplicarRestriccionesHorasMaximas (empleados : List Empleado)
    (dias : List Fecha) (turnos : List (String × Turno)) :
    List RestriccionHoras :=
  (List.range empleados.length).flatMap (fun e =>
    match empleados[e]? with
    | some empleado => restriccionesHorasEmpleado e empleado dias turnos
    | none => [])

/-- Meaning of one hour-cap constraint under a valuation. -/
def satisfaceHoras (sol : Solucion) (c : RestriccionHoras) : Prop :=
  ((c.terminos.map (fun t =>
    if sol (c.emp, t.1.1, t.1.2) then t.2 else 0)).sum) ≤ c.limite

/-- Ids of the shifts that have a decision variable on `dia` — the keys
`turno_id` with `(emp_idx, dia, turno_id) in self.shifts`, which for a
day of the month and an employee of the roster is exactly validity of the
shift on the day. -/
def turnosDelDia (turnos : List (String × Turno)) (dia : Fecha) :
    List String :=
  turnos.filterMap (fun p =>
    if p.2.esValidoParaDia dia then some p.1 else none)

/-- One emitted weekly rest constraint
`sum(dias_trabajados) <= max_dias_trabajados` (scheduler.py:357-360):
the days of the week that received a `trabajado` boolean, and the bound
`len(semana) - restricciones.dias_descanso_semana`. -/
structure RestriccionDescanso where
  emp : Nat
  dias_con_turnos : List Fecha
  limite : ℤ
deriving DecidableEq, Repr

/-- Per-week body of `_aplicar_restricciones_descanso`
(scheduler.py:338-360): a `dia_trabajado` boolean is created for each day
with at least one variable; the cardinality constraint is added only when
that list is non-empty and `len(semana) - dias_descanso_semana > 0`. -/
def restriccionDescansoSemana (e : Nat) (turnos : List (String × Turno))
    (diasDescanso : ℤ) (semana : List Fecha) : Option RestriccionDescanso :=
  let diasConTurnos := semana.filter
    (fun dia => !(turnosDelDia turnos dia).isEmpty)
  if diasConTurnos.isEmpty then none
  else
    let maxDias : ℤ := (semana.length : ℤ) - diasDescanso
    if 0 < maxDias then some ⟨e, diasConTurnos, maxDias⟩ else none

/-- `_aplicar_restricciones_descanso` (scheduler.py:323-360) over the
whole roster and the month's week groups. -/
def aplicarRestriccionesDescanso (numEmp : Nat) (dias : List Fecha)
    (turnos : List (String × Turno)) (diasDescanso : ℤ) :
    List RestriccionDescanso :=
  (List.range numEmp).flatMap (fun e =>
    (agruparPorSemanas dias).filterMap
      (restriccionDescansoSemana e turnos diasDescanso))

/-- Value of the derived boolean `dia_trabajado` in a feasible solution:
the two `OnlyEnforceIf` implications (scheduler.py:352-353) force
`dia_trabajado ⇔ sum(turnos_dia) ≥ 1`. -/
def trabajado (sol : Solucion) (turnos : List (String × Turno)) (e : Nat)
    (dia : Fecha) : Bool :=
  (turnosDelDia turnos dia).any (fun tid => sol (e, dia, tid))

/-- Meaning of one weekly rest constraint under a valuation. -/
def satisfaceDescanso (sol : Solucion) (turnos : List (String × Turno))
    (c : RestriccionDescanso) : Prop :=
  ((c.dias_con_turnos.filter
    (fun dia => trabajado sol turnos c.emp dia)).length : ℤ) ≤ c.limite

/-- One pin-induced fixing `shifts[(e, dia, tid)] == valor`
(scheduler.py:401 and 408). -/
structure RestriccionFija where
  emp : Nat
  dia : Fecha
  turno_id : String
  valor : Bool
deriving DecidableEq, Repr

/-- `self.empleado_idx = {emp.uid: i for i, emp in enumerate(empleados)}`
(scheduler.py:57); a duplicated uid keeps the last index, as in a Python
dict comprehension. -/
def empleadoIdx (empleados : List Empleado) : List (String × Nat) :=
  empleados.enum.foldl (fun m p => actualizar m p.2.uid p.1) []

/-- Body of the outer loop of `_aplicar_ajustes_fijos`
(scheduler.py:385-408) for one entry `empleado_id -> {dia -> turnoId}`:
an unknown employee id (`empleado_id not in self.empleado_idx`) is
skipped with `continue`; a day outside the month or an unknown shift id
is skipped with `continue`; a shift with no variable on that day
(invalid shift) is skipped with a log warning.  A surviving pin fixes
its variable to 1 and every overlapping shift with a variable that day
to 0. -/
def ajusteEmpleado (empleados : List Empleado) (dias : List Fecha)
    (turnos : List (String × Turno))
    (a : String × List (Fecha × String)) : List RestriccionFija :=
  match buscar (empleadoIdx empleados) a.1 with
  | none => []
  | some e =>
    a.2.flatMap (fun p =>
      if p.1 ∈ dias then
        match buscar turnos p.2 with
        | none => []
        | some turnoFijo =>
          if turnoFijo.esValidoParaDia p.1 then
            ⟨e, p.1, p.2, true⟩ ::
              turnos.filterMap (fun q =>
                if q.1 ≠ p.2 ∧ q.2.esValidoParaDia p.1 ∧
                    turnoFijo.seSolapaCon q.2 then
                  some ⟨e, p.1, q.1, false⟩
                else none)
          else []
      else [])

/-- `_aplicar_ajustes_fijos` (scheduler.py:376-408). -/
def aplicarAjustesFijos (empleados : List Empleado) (dias : List Fecha)
    (turnos : List (String × Turno))
    (ajustes : List (String × List (Fecha × String))) :
    List RestriccionFija :=
  ajustes.flatMap (ajusteEmpleado empleados dias turnos)

/-- Accumulators of `_construir_resultado` (scheduler.py:559-562):
`horarios` is a `defaultdict(dict)`, `horas_por_empleado` a
`defaultdict(float)`, `guardias_por_empleado` and
`festivos_por_empleado` are `defaultdict(int)`. -/
structure Acumulado where
  horarios : List (String × List (Fecha × String))
  horas : List (String × ℚ)
  guardias : List (String × Nat)
  festivos : List (String × Nat)
deriving DecidableEq, Repr

/-- Loop body of `_construir_resultado` (scheduler.py:564-577): for a
variable valued 1, `horarios[uid][dia] = turno_id` (overwriting any
entry already recorded for that (uid, dia)), add the shift's
`duracion_horas` to the employee's hours, and bump the guard/holiday
counters by type.  The index and catalog lookups cannot miss for
variables produced by `crearVariables`; a miss leaves the accumulator
unchanged. -/
def pasoAcumulado (empleados : List Empleado)
    (turnos : List (String × Turno)) (sol : Solucion) (acc : Acumulado)
    (v : Nat × Fecha × String) : Acumulado :=
  if sol v then
    match empleados[v.1]?, buscar turnos v.2.2 with
    | some empleado, some turno =>
      { horarios := actualizar acc.horarios empleado.uid
          (actualizar (buscarD acc.horarios empleado.uid []) v.2.1 v.2.2)
        horas := actualizar acc.horas empleado.uid
          (buscarD acc.horas empleado.uid 0 + turno.duracion_horas)
        guardias :=
          if turno.tipo = TipoTurno.guardia then
            actualizar acc.guardias empleado.uid
              (buscarD acc.guardias empleado.uid 0 + 1)
          else acc.guardias
        festivos :=
          if turno.tipo = TipoTurno.festivo then
            actualizar acc.festivos empleado.uid
              (buscarD acc.festivos empleado.uid 0 + 1)
          else acc.festivos }
    | _, _ => acc
  else acc

/-- The extraction loop of `_construir_resultado` over the variable
space (`for (emp_idx, dia, turno_id), var in self.shifts.items()`). -/
def construirAcumulado (empleados : List Empleado)
    (turnos : List (String × Turno)) (vars : List (Nat × Fecha × String))
    (sol : Solucion) : Acumulado :=
  vars.foldl (pasoAcumulado empleados turnos sol) ⟨[], [], [], []⟩

/-- `promedio = sum(horas_values) / len(horas_values)`
(scheduler.py:582). -/
noncomputable def promedio (hs : List ℝ) : ℝ :=
  hs.sum / hs.length

/-- `varianza = sum((h - promedio) ** 2 ...) / len(horas_values)`
(scheduler.py:583): the population variance. -/
noncomputable def varianza (hs : List ℝ) : ℝ :=
  ((hs.map (fun h => (h - promedio hs) ^ 2)).sum) / hs.length

/-- `desviacion = varianza ** 0.5` (scheduler.py:584). -/
noncomputable def desviacion (hs : List ℝ) : ℝ :=
  Real.sqrt (varianza hs)

/-- The equity computation of `_construir_resultado`
(scheduler.py:580-590): over a non-empty hour vector,
`1 - desviacion/promedio` when the mean is positive (else 1), clamped to
[0, 1]; over an empty vector, 1. -/
noncomputable def equidadDe (hs : List ℝ) : ℝ :=
  if hs.isEmpty then 1
  else
    max 0 (min 1 (if 0 < promedio hs then 1 - desviacion hs / promedio hs else 1))

/-- The four solver outcomes the driver distinguishes
(scheduler.py:144-152). -/
inductive EstadoSolver where
  | optimal
  | feasible
  | infeasible
  | unknown
deriving DecidableEq, Repr

/-- `solver.StatusName(status)`. -/
def nombreEstado : EstadoSolver → String
  | EstadoSolver.optimal => "OPTIMAL"
  | EstadoSolver.feasible => "FEASIBLE"
  | EstadoSolver.infeasible => "INFEASIBLE"
  | EstadoSolver.unknown => "UNKNOWN"

/-- `Metricas` (models.py:134-142).  The wall-clock field
`tiempo_ejecucion_segundos` is real time and is not modelled. -/
structure Metricas where
  horas_por_empleado : List (String × ℚ)
  guardias_por_empleado : List (String × Nat)
  festivos_por_empleado : List (String × Nat)
  distribucion_equitativa : ℝ
  restricciones_violadas : ℤ
  estado_solver : String

/-- `ResultadoGeneracion` (models.py:146-152). -/
structure ResultadoGeneracion where
  horarios : List (String × List (Fecha × String))
  metricas : Metricas
  estado : String
  mensaje : Option String := none
  sugerencias : List String := []

/-- `_construir_resultado` (scheduler.py:539-615). -/
noncomputable def construirResultado (empleados : List Empleado)
    (turnos : List (String × Turno)) (vars : List (Nat × Fecha × String))
    (sol : Solucion) (status : EstadoSolver) : ResultadoGeneracion :=
  let acc := construirAcumulado empleados turnos vars sol
  { horarios := acc.horarios
    metricas :=
      { horas_por_empleado := acc.horas
        guardias_por_empleado := acc.guardias
        festivos_por_empleado := acc.festivos
        distribucion_equitativa := equidadDe (acc.horas.map (fun p => (p.2 : ℝ)))
        restricciones_violadas := 0
        estado_solver := nombreEstado status }
    estado := "success"
    mensaje := some ("Horarios generados exitosamente (" ++ nombreEstado status ++ ")")
    sugerencias := [] }

/-- `_construir_resultado_infactible` (scheduler.py:617-656). -/
def construirResultadoInfactible (status : EstadoSolver) :
    ResultadoGeneracion :=
  { horarios := []
    metricas :=
      { horas_por_empleado := []
        guardias_por_empleado := []
        festivos_por_empleado := []
        distribucion_equitativa := 0
        restricciones_violadas := -1
        estado_solver := nombreEstado status }
    estado := "infeasible"
    mensaje := some "No se pudo generar un horario que cumpla todas las restricciones"
    sugerencias :=
      ["Aumentar el número de empleados disponibles",
       "Reducir la cobertura mínima requerida por turno",
       "Aumentar las horas máximas permitidas (habilitar horas extra)",
       "Revisar festivos personales que puedan estar bloqueando asignaciones",
       "Reducir los días de descanso obligatorios por semana"] }

/-- Step 6 of `generar_horarios` (scheduler.py:143-152): optimal and
feasible statuses go to `_construir_resultado`, every other status to
`_construir_resultado_infactible` — a returned value, not an
exception. -/
noncomputable def procesarResultado (empleados : List Empleado)
    (turnos : List (String × Turno)) (vars : List (Nat × Fecha × String))
    (sol : Solucion) (status : EstadoSolver) : ResultadoGeneracion :=
  if status = EstadoSolver.optimal ∨ status = EstadoSolver.feasible then
    construirResultado empleados turnos vars sol status
  else
    construirResultadoInfactible status

/-! ### Spec-side definitions (used to compare the code with claims) -/

/-- The validity predicate exactly as the claim states it: a fixed date
equal to the given date, or a weekday mask containing the date's ISO
weekday. -/
def validaSegunSpec (t : Turno) (fecha : Fecha) : Prop :=
  (∃ fe, t.fecha_especifica = some fe ∧ fecha = fe) ∨
    isoWeekday fecha ∈ t.dias_semana_validos

/-- Non-empty intersection of the half-open minute intervals
`[i1, f1)` and `[i2, f2)`. -/
def intervalosSeIntersecan (i1 f1 i2 f2 : Nat) : Prop :=
  ∃ x, i1 ≤ x ∧ x < f1 ∧ i2 ≤ x ∧ x < f2

/-- The equity formula exactly as the claim states it:
`max(0, 1 − σ/μ)` over a given hour vector, and `1` when `μ = 0`. -/
noncomputable def equidadSegunSpec (hs : List ℝ) : ℝ :=
  if promedio hs = 0 then 1
  else max 0 (1 - desviacion hs / promedio hs)

/-- The hour ceiling an hour-cap constraint of each scope compares
against (scheduler.py:289, 306, 320). -/
def limiteDe (empleado : Empleado) : AlcanceHoras → ℚ
  | AlcanceHoras.diaria _ => empleado.horas_maximas_diarias
  | AlcanceHoras.semanal _ => empleado.horas_maximas_semanales
  | AlcanceHoras.mensual => empleado.horas_maximas_mensuales

/-! ### Concrete example data (witnesses and counterexamples) -/

/-- Monday 2025-01-06. -/
def lunesEj : Fecha := ⟨2025, 1, 6⟩

/-- Tuesday 2025-01-07. -/
def martesEj : Fecha := ⟨2025, 1, 7⟩

/-- A 09:00-13:00 four-hour template with no weekday restriction. -/
def turnoManana : Turno :=
  { id := "M", nombre := "Manana", hora_inicio := ⟨9, 0⟩,
    hora_fin := ⟨13, 0⟩, duracion_horas := 4, tipo := TipoTurno.laboral }

/-- A 13:00-17:00 four-hour template with no weekday restriction. -/
def turnoTarde : Turno :=
  { id := "T", nombre := "Tarde", hora_inicio := ⟨13, 0⟩,
    hora_fin := ⟨17, 0⟩, duracion_horas := 4, tipo := TipoTurno.laboral }

/-- An eight-hour 09:00-17:00 template with no weekday restriction. -/
def turnoCompleto : Turno :=
  { id := "C", nombre := "Completo", hora_inicio := ⟨9, 0⟩,
    hora_fin := ⟨17, 0⟩, duracion_horas := 8, tipo := TipoTurno.laboral }

/-- Two-template catalog: morning and afternoon halves of a split day. -/
def catalogoEj : List (String × Turno) :=
  [("M", turnoManana), ("T", turnoTarde)]

/-- An employee with integral ceilings. -/
def empleadoE1 : Empleado :=
  { uid := "E1", nombre := "Ana", email := "ana@farmacia.es",
    horas_maximas_diarias := 8, horas_maximas_semanales := 40,
    horas_maximas_mensuales := 160 }

/-- A second employee with integral ceilings. -/
def empleadoE2 : Empleado :=
  { uid := "E2", nombre := "Luis", email := "luis@farmacia.es",
    horas_maximas_diarias := 8, horas_maximas_semanales := 40,
    horas_maximas_mensuales := 160 }

/-- An employee whose daily ceiling is the fractional 7.5 hours. -/
def empleadoFraccion : Empleado :=
  { uid := "F1", nombre := "Mar", email := "mar@farmacia.es",
    horas_maximas_diarias := 15 / 2, horas_maximas_semanales := 40,
    horas_maximas_mensuales := 160 }

/-- A configuration whose coverage-rule attribute is present (and empty),
so the resolver falls back to the global floor of 1. -/
def cfgCoberturaEj : ConfiguracionTurnos :=
  { turnos := [("C", turnoCompleto)],
    cobertura_minima := [("trabajadoresMinimos", 1)],
    configuraciones_cobertura := some [] }

/-- A valuation assigning exactly employee 0 to shift C on 2025-01-06. -/
def solCoberturaEj : Solucion :=
  fun v => decide (v = (0, lunesEj, "C"))

/-- Evolution of the `horas_por_empleado` accumulator alone under one
variable of the extraction loop (the `horas` component of
`pasoAcumulado`). -/
def pasoHoras (empleados : List Empleado) (turnos : List (String × Turno))
    (sol : Solucion) (m : List (String × ℚ)) (v : Nat × Fecha × String) :
    List (String × ℚ) :=
  if sol v then
    match empleados[v.1]?, buscar turnos v.2.2 with
    | some empleado, some turno =>
      actualizar m empleado.uid
        (buscarD m empleado.uid 0 + turno.duracion_horas)
    | _, _ => m
  else m

/-- The durations the extraction loop adds for the employee with uid
`uid`: one entry per variable valued 1 whose employee has that uid and
whose shift id resolves in the catalog. -/
def contribucionesUid (empleados : List Empleado)
    (turnos : List (String × Turno)) (sol : Solucion) (uid : String)
    (vars : List (Nat × Fecha × String)) : List ℚ :=
  vars.filterMap (fun v =>
    if sol v then
      match empleados[v.1]?, buscar turnos v.2.2 with
      | some empleado, some turno =>
        if empleado.uid = uid then some turno.duracion_horas else none
      | _, _ => none
    else none)


/-! ### Sanity anchors for the weekday embedding (known calendar facts:
2000-01-01 was a Saturday, 2025-01-06 a Monday, 2025-01-01 a Wednesday,
2024-02-29 a Thursday) -/

theorem pyWeekday_ancla_2000 : pyWeekday ⟨2000, 1, 1⟩ = 5 := by decide

theorem pyWeekday_ancla_2025 : pyWeekday ⟨2025, 1, 6⟩ = 0 := by decide

theorem isoWeekday_ancla_2025 : isoWeekday ⟨2025, 1, 1⟩ = 3 := by decide

theorem pyWeekday_ancla_bisiesto : pyWeekday ⟨2024, 2, 29⟩ = 3 := by decide

/-! ### C1 — the coverage resolver -/

/-- C1: the coverage resolver is claimed to be a total function on the
configuration type it receives, walking the per-slot rules and falling
back to the global floor.  In fact `_obtener_trabajadores_necesarios`
(scheduler.py:189) begins by reading
`self.config_turnos.configuraciones_cobertura`, an attribute that
`ConfiguracionTurnos` (models.py:96-100) does not declare and that
`_parsear_configuracion_turnos` (main.py:356-386) never sets, so every
call raises `AttributeError` before any rule is consulted: for every
parsed configuration and every (date, shift) input the embedded resolver
returns the error, never a headcount. -/
theorem obtenerTrabajadoresNecesarios_parseado_siempre_error
    (turnosData : List (String × TurnoInfo))
    (coberturaData : List (String × ℤ)) (fecha : Fecha) (turno : Turno) :
    obtenerTrabajadoresNecesarios
        (parsearConfiguracionTurnos turnosData coberturaData) fecha turno =
      Except.error "AttributeError: ConfiguracionTurnos object has no attribute configuraciones_cobertura" := by
  rfl

/-! ### C4 — weekday validity of a template -/

/-- C4 counterexample: the claim's characterization of `validFor` fails.
A template with no fixed date and an empty weekday mask (exactly what
`_parsear_configuracion_turnos` produces for every template) is valid on
2025-01-06 according to the code, while the claimed right-hand side
(fixed date equal, or ISO weekday in the mask) is false — so the claimed
if-and-only-if is violated, and in particular such a template is valid on
every date, not on no date. -/
theorem esValidoParaDia_contraejemplo :
    ¬ (turnoManana.esValidoParaDia lunesEj = true ↔
        validaSegunSpec turnoManana lunesEj) := by
  intro h
  have hv : validaSegunSpec turnoManana lunesEj := h.mp (by decide)
  rcases hv with ⟨fe, hfe, _⟩ | hmem
  · exact Option.noConfusion hfe
  · exact List.not_mem_nil _ hmem

/-- C4 amended: `es_valido_para_dia` returns true iff the template has a
fixed date and it equals the given date, or the template has no fixed
date and its weekday mask is empty or contains the date's ISO weekday.
(A fixed date overrides the mask entirely, and a template with no fixed
date and an empty mask is valid on every date, not on none.) -/
theorem esValidoParaDia_caracterizacion (t : Turno) (f : Fecha) :
    t.esValidoParaDia f = true ↔
      ((∃ fe, t.fecha_especifica = some fe ∧ f = fe) ∨
        (t.fecha_especifica = none ∧
          (t.dias_semana_validos = [] ∨
            isoWeekday f ∈ t.dias_semana_validos))) := by
  cases hfe : t.fecha_especifica with
  | none =>
    by_cases hm : t.dias_semana_validos = [] <;>
      simp [Turno.esValidoParaDia, hfe, List.isEmpty_iff, hm]
  | some fe =>
    simp [Turno.esValidoParaDia, hfe]

/-! ### C5 — the overlap relation -/

/-- C5 counterexample: the overlap relation is claimed to be
anti-reflexive, but any template with a non-degenerate time window
overlaps itself: `se_solapa_con` computes
`not (fin1 <= inicio2 or fin2 <= inicio1)`, which on the 09:00-13:00
template applied to itself is `not (780 <= 540 or 780 <= 540) = true`. -/
theorem seSolapaCon_no_antirreflexiva :
    turnoManana.seSolapaCon turnoManana = true := by decide

/-- C5 amended: the overlap relation is symmetric; templates that meet
exactly at the boundary (`endA == startB`) do not overlap; for templates
whose `[start, end)` windows are non-empty it holds exactly when the
minute intervals intersect; and it is reflexive (not anti-reflexive) on
any template with a non-empty window. -/
theorem seSolapaCon_caracterizacion (t1 t2 : Turno) :
    (t1.seSolapaCon t2 = t2.seSolapaCon t1)
    ∧ (t2.hora_inicio.minutos = t1.hora_fin.minutos →
        t1.seSolapaCon t2 = false)
    ∧ (t1.hora_inicio.minutos < t1.hora_fin.minutos →
        t2.hora_inicio.minutos < t2.hora_fin.minutos →
        (t1.seSolapaCon t2 = true ↔
          intervalosSeIntersecan t1.hora_inicio.minutos t1.hora_fin.minutos
            t2.hora_inicio.minutos t2.hora_fin.minutos))
    ∧ (t1.hora_inicio.minutos < t1.hora_fin.minutos →
        t1.seSolapaCon t1 = true) := by
  refine ⟨?_, ?_, ?_, ?_⟩
  · simp [Turno.seSolapaCon, Bool.or_comm]
  · intro h
    simp [Turno.seSolapaCon, h]
  · intro h1 h2
    simp only [Turno.seSolapaCon, Bool.not_eq_eq_eq_not, Bool.not_true,
      Bool.or_eq_false_iff, decide_eq_false_iff_not, not_le,
      intervalosSeIntersecan]
    constructor
    · rintro ⟨ha, hb⟩
      exact ⟨max t1.hora_inicio.minutos t2.hora_inicio.minutos,
        by omega, by omega, by omega, by omega⟩
    · rintro ⟨x, hx1, hx2, hx3, hx4⟩
      omega
  · intro h
    simp [Turno.seSolapaCon]
    omega

/-- C5 amended, witness: on the concrete split-day templates, the
morning shift overlaps itself (windows are non-empty) and does not
overlap the afternoon shift that starts exactly when it ends. -/
theorem seSolapaCon_caracterizacion_testigo :
    turnoManana.seSolapaCon turnoManana = true ∧
      turnoManana.seSolapaCon turnoTarde = false :=
  ⟨(seSolapaCon_caracterizacion turnoManana turnoManana).2.2.2 (by decide),
   (seSolapaCon_caracterizacion turnoManana turnoTarde).2.1 (by decide)⟩

/-! ### C6 — the infeasibility report -/

/-- C6: on solver status infeasible or unknown the builder returns a
structured result (a value of `ResultadoGeneracion`, not an exception)
whose estado is `infeasible`, whose schedule is empty, whose equity is
0.0, and whose suggestions are exactly the five fixed remediation hints
in order: increase headcount, lower the coverage floor, allow overtime,
review personal holidays, relax the weekly rest-day floor
(scheduler.py:144-152, 617-656). -/
theorem procesarResultado_infactible_estructura
    (empleados : List Empleado) (turnos : List (String × Turno))
    (vars : List (Nat × Fecha × String)) (sol : Solucion)
    (status : EstadoSolver)
    (h : status = EstadoSolver.infeasible ∨ status = EstadoSolver.unknown) :
    (procesarResultado empleados turnos vars sol status).estado = "infeasible"
    ∧ (procesarResultado empleados turnos vars sol status).horarios = []
    ∧ (procesarResultado empleados turnos vars sol
        status).metricas.distribucion_equitativa = 0
    ∧ (procesarResultado empleados turnos vars sol status).sugerencias =
      ["Aumentar el número de empleados disponibles",
       "Reducir la cobertura mínima requerida por turno",
       "Aumentar las horas máximas permitidas (habilitar horas extra)",
       "Revisar festivos personales que puedan estar bloqueando asignaciones",
       "Reducir los días de descanso obligatorios por semana"] := by
  rcases h with h | h <;> subst h <;> exact ⟨rfl, rfl, rfl, rfl⟩

/-- C6 witness: the structure theorem applied to the unknown status with
a concrete (empty) model. -/
theorem procesarResultado_infactible_testigo :
    (procesarResultado [] [] [] (fun _ => false)
        EstadoSolver.unknown).estado = "infeasible"
    ∧ (procesarResultado [] [] [] (fun _ => false)
        EstadoSolver.unknown).horarios = []
    ∧ (procesarResultado [] [] [] (fun _ => false)
        EstadoSolver.unknown).metricas.distribucion_equitativa = 0
    ∧ (procesarResultado [] [] [] (fun _ => false)
        EstadoSolver.unknown).sugerencias =
      ["Aumentar el número de empleados disponibles",
       "Reducir la cobertura mínima requerida por turno",
       "Aumentar las horas máximas permitidas (habilitar horas extra)",
       "Revisar festivos personales que puedan estar bloqueando asignaciones",
       "Reducir los días de descanso obligatorios por semana"] :=
  procesarResultado_infactible_estructura [] [] [] (fun _ => false)
    EstadoSolver.unknown (Or.inr rfl)

/-! ### C2 — the result reducer on split shifts -/

/-- C2: the result reducer is claimed to record every variable valued 1,
so that a split shift (two non-overlapping templates on the same day)
appears twice.  But `_construir_resultado` stores
`horarios[uid][dia] = turno_id` (scheduler.py:569) into a date-keyed
dict, so the second assignment of the same (employee, date) overwrites
the first: with the 09:00-13:00 and 13:00-17:00 templates both assigned
on 2025-01-06, the returned schedule holds only the afternoon template,
while the hour metric (scheduler.py:572) correctly counts both halves
(8 hours) — the reducer contradicts the split-shift feature the model
itself permits (scheduler.py:246-269). -/
theorem construirResultado_pierde_turno_partido :
    (construirResultado [empleadoE1] catalogoEj
        (crearVariables 1 [lunesEj] catalogoEj) (fun _ => true)
        EstadoSolver.optimal).horarios = [("E1", [(lunesEj, "T")])]
    ∧ (construirResultado [empleadoE1] catalogoEj
        (crearVariables 1 [lunesEj] catalogoEj) (fun _ => true)
        EstadoSolver.optimal).metricas.horas_por_empleado =
      [("E1", (8 : ℚ))] := by
  have hv : crearVariables 1 [lunesEj] catalogoEj =
      [(0, lunesEj, "M"), (0, lunesEj, "T")] := by decide
  refine ⟨rfl, ?_⟩
  rw [hv]
  show (construirAcumulado [empleadoE1] catalogoEj
      [(0, lunesEj, "M"), (0, lunesEj, "T")] (fun _ => true)).horas =
    [("E1", (8 : ℚ))]
  simp [construirAcumulado, List.foldl_cons, List.foldl_nil,
    pasoAcumulado, catalogoEj, empleadoE1, turnoManana, turnoTarde,
    buscar, buscarD, actualizar]
  norm_num

/-! ### C9 — pins with an unknown employee id -/

/-- C9 counterexample: the claim says an unknown employee id in the
pinned assignments makes generation fail fast and the model is never
built.  In fact `_aplicar_ajustes_fijos` (scheduler.py:386-387) hits
`continue` for the unknown id `fantasma` — no exception, not even a log
line — and proceeds to apply the remaining pins: the embedded pin
applier returns the fixing constraint for the valid pin of `E1`. -/
theorem aplicarAjustesFijos_contraejemplo :
    aplicarAjustesFijos [empleadoE1] [lunesEj] catalogoEj
        [("fantasma", [(lunesEj, "M")]), ("E1", [(lunesEj, "M")])] =
      [⟨0, lunesEj, "M", true⟩] := by decide

/-- C9 amended: a pinned-assignments entry referencing an employee id
that is not in the roster is silently skipped — it contributes no
constraint and raises no error — and the model build proceeds with the
remaining pins: dropping all unknown-id entries leaves the emitted pin
constraints unchanged. -/
theorem aplicarAjustesFijos_ignora_desconocidos (empleados : List Empleado)
    (dias : List Fecha) (turnos : List (String × Turno))
    (ajustes : List (String × List (Fecha × String))) :
    aplicarAjustesFijos empleados dias turnos ajustes =
      aplicarAjustesFijos empleados dias turnos
        (ajustes.filter
          (fun a => (buscar (empleadoIdx empleados) a.1).isSome)) := by
  induction ajustes with
  | nil => rfl
  | cons a rest ih =>
    simp only [aplicarAjustesFijos, List.flatMap_cons, List.filter_cons] at *
    cases h : buscar (empleadoIdx empleados) a.1 with
    | none =>
      have ha : ajusteEmpleado empleados dias turnos a = [] := by
        unfold ajusteEmpleado
        rw [h]
      simp [h, ha, ih]
    | some e =>
      simp [h, ih]

/-! ### C10 — integer truncation in the hour caps -/

/-- Every term of an hour-cap constraint carries the `int()`-truncated
duration of a catalog shift valid on its day (scheduler.py:284,301,315). -/
theorem terminosHoras_mem {dias : List Fecha}
    {turnos : List (String × Turno)} {t : (Fecha × String) × ℤ}
    (h : t ∈ terminosHoras dias turnos) :
    ∃ turno, (t.1.2, turno) ∈ turnos ∧ turno.esValidoParaDia t.1.1 = true ∧
      t.2 = pyInt turno.duracion_horas := by
  unfold terminosHoras at h
  rw [List.mem_flatMap] at h
  obtain ⟨dia, _, ht⟩ := h
  rw [List.mem_filterMap] at ht
  obtain ⟨p, hp, hpt⟩ := ht
  by_cases hv : p.2.esValidoParaDia dia = true
  · rw [if_pos hv] at hpt
    cases hpt
    exact ⟨p.2, hp, hv, rfl⟩
  · rw [if_neg hv] at hpt
    cases hpt

/-- Truncation of a non-negative non-integral rational is strictly
smaller than the rational. -/
theorem pyInt_lt_de_fraccionario {q : ℚ} (h0 : 0 ≤ q)
    (hni : ¬ ∃ z : ℤ, (z : ℚ) = q) : (pyInt q : ℚ) < q := by
  refine lt_of_le_of_ne ?_ (fun heq => hni ⟨pyInt q, heq⟩)
  unfold pyInt
  rw [if_pos h0]
  exact Int.floor_le q

/-- C10: in the daily, weekly and monthly hour-cap constraints both the
per-shift durations and the per-employee ceiling are truncated with
`int()` before the comparison: every emitted constraint bounds the sum
of `int()`-floored durations by `int()` of the scope's ceiling, and when
the ceiling is fractional (e.g. 7.5) the enforced bound is strictly
below the stated ceiling. -/
theorem horasMaximas_truncamiento (empleados : List Empleado)
    (dias : List Fecha) (turnos : List (String × Turno))
    (c : RestriccionHoras)
    (hc : c ∈ aplicarRestriccionesHorasMaximas empleados dias turnos) :
    ∃ empleado, empleados[c.emp]? = some empleado
      ∧ c.limite = pyInt (limiteDe empleado c.alcance)
      ∧ (∀ t ∈ c.terminos, ∃ turno, (t.1.2, turno) ∈ turnos ∧
          turno.esValidoParaDia t.1.1 = true ∧
          t.2 = pyInt turno.duracion_horas)
      ∧ (0 ≤ limiteDe empleado c.alcance →
          (¬ ∃ z : ℤ, (z : ℚ) = limiteDe empleado c.alcance) →
          (c.limite : ℚ) < limiteDe empleado c.alcance) := by
  unfold aplicarRestriccionesHorasMaximas at hc
  rw [List.mem_flatMap] at hc
  obtain ⟨e, _, hce⟩ := hc
  cases hm : empleados[e]? with
  | none =>
    rw [hm] at hce
    cases hce
  | some empleado =>
    rw [hm] at hce
    refine ⟨empleado, ?_⟩
    unfold restriccionesHorasEmpleado at hce
    rw [List.mem_append, List.mem_append] at hce
    rcases hce with (hce | hce) | hce
    · rw [List.mem_filterMap] at hce
      obtain ⟨dia, _, hday⟩ := hce
      by_cases hts : (terminosHoras [dia] turnos).isEmpty
      · rw [if_pos hts] at hday
        cases hday
      · rw [if_neg hts] at hday
        cases hday
        exact ⟨hm, rfl, fun t ht => terminosHoras_mem ht,
          fun h0 hden => pyInt_lt_de_fraccionario h0 hden⟩
    · rw [List.mem_filterMap] at hce
      obtain ⟨semana, _, hsem⟩ := hce
      by_cases hts : (terminosHoras semana turnos).isEmpty
      · rw [if_pos hts] at hsem
        cases hsem
      · rw [if_neg hts] at hsem
        cases hsem
        exact ⟨hm, rfl, fun t ht => terminosHoras_mem ht,
          fun h0 hden => pyInt_lt_de_fraccionario h0 hden⟩
    · by_cases hts : (terminosHoras dias turnos).isEmpty
      · rw [if_pos hts] at hce
        cases hce
      · rw [if_neg hts] at hce
        rw [List.mem_singleton] at hce
        subst hce
        exact ⟨hm, rfl, fun t ht => terminosHoras_mem ht,
          fun h0 hden => pyInt_lt_de_fraccionario h0 hden⟩

/-- The daily constraint the model emits for the fractional-ceiling
employee on 2025-01-06. -/
def restriccionDiariaEj : RestriccionHoras :=
  ⟨0, AlcanceHoras.diaria lunesEj,
    [((lunesEj, "M"), 4), ((lunesEj, "T"), 4)], 7⟩

/-- C10 witness: for the employee with `maxDailyHours = 7.5` the daily
constraint on 2025-01-06 is emitted with the truncated bound 7, and the
theorem yields `7 < 7.5`. -/
theorem horasMaximas_truncamiento_testigo :
    restriccionDiariaEj ∈
      aplicarRestriccionesHorasMaximas [empleadoFraccion] [lunesEj] catalogoEj
    ∧ ((restriccionDiariaEj.limite : ℚ) <
        empleadoFraccion.horas_maximas_diarias) := by
  have heval : aplicarRestriccionesHorasMaximas [empleadoFraccion]
      [lunesEj] catalogoEj =
      [restriccionDiariaEj,
       ⟨0, AlcanceHoras.semanal [lunesEj],
         [((lunesEj, "M"), 4), ((lunesEj, "T"), 4)], 40⟩,
       ⟨0, AlcanceHoras.mensual,
         [((lunesEj, "M"), 4), ((lunesEj, "T"), 4)], 160⟩] := by
    simp [aplicarRestriccionesHorasMaximas, restriccionesHorasEmpleado,
      terminosHoras, agruparPorSemanas, agruparAux, catalogoEj,
      empleadoFraccion, restriccionDiariaEj, turnoManana, turnoTarde,
      Turno.esValidoParaDia, pyInt, List.range_succ, List.flatMap_cons,
      List.flatMap_nil, List.getElem?_cons_zero]
    norm_num
  have hmem : restriccionDiariaEj ∈
      aplicarRestriccionesHorasMaximas [empleadoFraccion] [lunesEj]
        catalogoEj := by
    rw [heval]
    exact List.mem_cons_self _ _
  refine ⟨hmem, ?_⟩
  obtain ⟨empleado, h1, h2, h3, h4⟩ :=
    horasMaximas_truncamiento [empleadoFraccion] [lunesEj] catalogoEj
      restriccionDiariaEj hmem
  have hemp : empleado = empleadoFraccion := by
    have h1' : some empleadoFraccion = some empleado := h1
    exact (Option.some.inj h1').symm
  subst hemp
  refine h4 (by norm_num [restriccionDiariaEj, limiteDe, empleadoFraccion]) ?_
  rintro ⟨z, hz⟩
  have hz' : (z : ℚ) = 15 / 2 := by
    rwa [show limiteDe empleadoFraccion restriccionDiariaEj.alcance = 15 / 2
      from rfl] at hz
  have h2q : ((2 * z : ℤ) : ℚ) = 15 := by
    push_cast
    rw [hz']
    ring
  have h2z : (2 * z : ℤ) = 15 := by exact_mod_cast h2q
  omega

/-! ### C8 — the weekly rest-day floor -/

/-- A day counted as worked has at least one shift variable. -/
theorem trabajado_implica_turnos {sol : Solucion}
    {turnos : List (String × Turno)} {e : Nat} {dia : Fecha}
    (h : trabajado sol turnos e dia = true) :
    (!(turnosDelDia turnos dia).isEmpty) = true := by
  unfold trabajado at h
  cases hl : turnosDelDia turnos dia with
  | nil => rw [hl] at h; simp at h
  | cons a l => simp [List.isEmpty]

/-- Counting worked days over the days that received a `trabajado`
boolean equals counting them over the whole week: days without shift
variables are never worked. -/
theorem filtro_trabajado_semana (sol : Solucion)
    (turnos : List (String × Turno)) (e : Nat) (semana : List Fecha) :
    (semana.filter (fun dia => !(turnosDelDia turnos dia).isEmpty)).filter
        (fun dia => trabajado sol turnos e dia) =
      semana.filter (fun dia => trabajado sol turnos e dia) := by
  rw [List.filter_filter]
  apply List.filter_congr
  intro d _
  cases h : trabajado sol turnos e d
  · simp
  · simp [trabajado_implica_turnos h]

/-- C8: for each employee and each week group the model bounds the
number of worked days (days whose derived boolean, forced by the two
`OnlyEnforceIf` implications to equal "has at least one assigned
shift", is 1) by `|week| − restDaysPerWeek`; the constraint is omitted
entirely whenever `|week| − restDaysPerWeek ≤ 0`, so a short partial
week never contributes a constraint and can never by itself make the
model infeasible (scheduler.py:323-360). -/
theorem descanso_semanal_caracterizacion (numEmp : Nat)
    (dias : List Fecha) (turnos : List (String × Turno))
    (diasDescanso : ℤ) (sol : Solucion) (e : Nat) (semana : List Fecha) :
    ((semana.length : ℤ) - diasDescanso ≤ 0 →
      restriccionDescansoSemana e turnos diasDescanso semana = none)
    ∧ (∀ c, restriccionDescansoSemana e turnos diasDescanso semana = some c →
        c.limite = (semana.length : ℤ) - diasDescanso
        ∧ (satisfaceDescanso sol turnos c ↔
            (((semana.filter
                (fun dia => trabajado sol turnos e dia)).length : ℤ) ≤
              (semana.length : ℤ) - diasDescanso)))
    ∧ (e < numEmp → semana ∈ agruparPorSemanas dias →
        ∀ c, restriccionDescansoSemana e turnos diasDescanso semana = some c →
          c ∈ aplicarRestriccionesDescanso numEmp dias turnos diasDescanso) := by
  refine ⟨?_, ?_, ?_⟩
  · intro hle
    unfold restriccionDescansoSemana
    by_cases hvac : (semana.filter
        (fun dia => !(turnosDelDia turnos dia).isEmpty)).isEmpty
    · simp [hvac]
    · simp only [hvac]
      rw [if_neg (by simp [hvac]), if_neg (by omega)]
  · intro c hc
    unfold restriccionDescansoSemana at hc
    by_cases hvac : (semana.filter
        (fun dia => !(turnosDelDia turnos dia).isEmpty)).isEmpty
    · rw [if_pos (by simpa using hvac)] at hc
      cases hc
    · rw [if_neg (by simpa using hvac)] at hc
      by_cases hpos : (0 : ℤ) < (semana.length : ℤ) - diasDescanso
      · rw [if_pos hpos] at hc
        cases hc
        refine ⟨rfl, ?_⟩
        unfold satisfaceDescanso
        rw [filtro_trabajado_semana]
      · rw [if_neg hpos] at hc
        cases hc
  · intro he hsem c hc
    unfold aplicarRestriccionesDescanso
    rw [List.mem_flatMap]
    exact ⟨e, List.mem_range.mpr he, List.mem_filterMap.mpr ⟨semana, hsem, hc⟩⟩

/-- C8 witness: with one rest day required, the two-day partial week
2025-01-06/07 yields no constraint when three rest days are demanded
(2 − 3 ≤ 0); with zero rest days demanded the one-day week [2025-01-06]
yields the constraint bounding worked days by 1, whose meaning under the
all-ones valuation is the stated count bound. -/
theorem descanso_semanal_testigo :
    restriccionDescansoSemana 0 catalogoEj 3 [lunesEj, martesEj] = none
    ∧ (satisfaceDescanso (fun _ => true) catalogoEj ⟨0, [lunesEj], 1⟩ ↔
        ((([lunesEj].filter
            (fun dia => trabajado (fun _ => true) catalogoEj 0 dia)).length : ℤ) ≤
          (([lunesEj].length : Nat) : ℤ) - 0)) := by
  refine ⟨(descanso_semanal_caracterizacion 1 [lunesEj, martesEj] catalogoEj 3
      (fun _ => true) 0 [lunesEj, martesEj]).1 (by norm_num), ?_⟩
  have h := (descanso_semanal_caracterizacion 1 [lunesEj] catalogoEj 0
      (fun _ => true) 0 [lunesEj]).2.1 ⟨0, [lunesEj], 1⟩ (by decide)
  exact h.2

/-! ### C3 — coverage equality -/

/-- Inner coverage loop, success case: every shift in the processed list
got its headcount resolved, and (when the roster is non-empty) its
equality constraint is in the emitted list. -/
theorem restriccionesCoberturaLista_ok {cfg : ConfiguracionTurnos}
    {numEmp : Nat} {dia : Fecha} {l : List (String × Turno)}
    {cs : List RestriccionCobertura}
    (h : restriccionesCoberturaLista cfg numEmp dia l = Except.ok cs) :
    ∀ p ∈ l, ∃ r, obtenerTrabajadoresNecesarios cfg dia p.2 = Except.ok r ∧
      (0 < numEmp →
        (⟨dia, p.1, numEmp, r⟩ : RestriccionCobertura) ∈ cs) := by
  induction l generalizing cs with
  | nil => intro p hp; cases hp
  | cons q rest ih =>
    obtain ⟨tid, t⟩ := q
    intro p hp
    rw [restriccionesCoberturaLista] at h
    cases hr : obtenerTrabajadoresNecesarios cfg dia t with
    | error e => rw [hr] at h; simp at h
    | ok r =>
      rw [hr] at h
      cases hrest : restriccionesCoberturaLista cfg numEmp dia rest with
      | error e => rw [hrest] at h; simp at h
      | ok cs2 =>
        rw [hrest] at h
        cases h
        rcases List.mem_cons.mp hp with hpq | hpr
        · subst hpq
          exact ⟨r, hr, fun hemp => by simp [if_pos hemp]⟩
        · obtain ⟨r2, hr2, hmem2⟩ := ih hrest p hpr
          exact ⟨r2, hr2,
            fun hemp => List.mem_append_right _ (hmem2 hemp)⟩

/-- Outer coverage loop, success case: every valid (day, shift) pair got
its headcount resolved and its equality constraint emitted. -/
theorem aplicarRestriccionesCobertura_ok {cfg : ConfiguracionTurnos}
    {numEmp : Nat} {dias : List Fecha} {cs : List RestriccionCobertura}
    (h : aplicarRestriccionesCobertura cfg numEmp dias = Except.ok cs) :
    ∀ dia ∈ dias, ∀ p ∈ cfg.turnos, p.2.esValidoParaDia dia = true →
      ∃ r, obtenerTrabajadoresNecesarios cfg dia p.2 = Except.ok r ∧
        (0 < numEmp →
          (⟨dia, p.1, numEmp, r⟩ : RestriccionCobertura) ∈ cs) := by
  induction dias generalizing cs with
  | nil => intro dia hdia; cases hdia
  | cons d rest ih =>
    intro dia hdia p hp hval
    rw [aplicarRestriccionesCobertura] at h
    cases h1 : restriccionesCoberturaLista cfg numEmp d
        (cfg.turnos.filter (fun p => p.2.esValidoParaDia d)) with
    | error e => rw [h1] at h; simp at h
    | ok cs1 =>
      rw [h1] at h
      cases h2 : aplicarRestriccionesCobertura cfg numEmp rest with
      | error e => rw [h2] at h; simp at h
      | ok cs2 =>
        rw [h2] at h
        cases h
        rcases List.mem_cons.mp hdia with hd | hd
        · subst hd
          obtain ⟨r, hr, hmem⟩ := restriccionesCoberturaLista_ok h1 p
            (List.mem_filter.mpr ⟨hp, hval⟩)
          exact ⟨r, hr, fun hemp => List.mem_append_left _ (hmem hemp)⟩
        · obtain ⟨r, hr, hmem⟩ := ih h2 dia hd p hp hval
          exact ⟨r, hr, fun hemp => List.mem_append_right _ (hmem hemp)⟩

/-- C3: in every run where the coverage constraints were built
successfully and the solver's valuation satisfies them (which is the
case in every optimal/feasible run), the number of employees assigned to
a shift valid on a day with at least one employee variable is exactly
the resolved requirement — equality, not at-least
(scheduler.py:241-243 emits `sum(empleados_asignados) ==
trabajadores_necesarios`). -/
theorem cobertura_exacta (cfg : ConfiguracionTurnos) (numEmp : Nat)
    (dias : List Fecha) (cs : List RestriccionCobertura) (sol : Solucion)
    (hgen : aplicarRestriccionesCobertura cfg numEmp dias = Except.ok cs)
    (hsat : ∀ c ∈ cs, satisfaceCobertura sol c) :
    ∀ dia ∈ dias, ∀ p ∈ cfg.turnos, p.2.esValidoParaDia dia = true →
      0 < numEmp →
      ∃ r, obtenerTrabajadoresNecesarios cfg dia p.2 = Except.ok r ∧
        (contarAsignados sol numEmp dia p.1 : ℤ) = r := by
  intro dia hdia p hp hval hemp
  obtain ⟨r, hr, hmem⟩ := aplicarRestriccionesCobertura_ok hgen dia hdia p hp hval
  exact ⟨r, hr, hsat _ (hmem hemp)⟩

/-- C3 witness: one employee, a single all-day template, the
rule-attribute present but empty so the floor 1 applies; the generated
constraint set is satisfied by assigning employee 0, and the theorem
yields an assignment count equal to the resolved requirement. -/
theorem cobertura_exacta_testigo :
    aplicarRestriccionesCobertura cfgCoberturaEj 1 [lunesEj] =
      Except.ok [⟨lunesEj, "C", 1, 1⟩]
    ∧ ∃ r, obtenerTrabajadoresNecesarios cfgCoberturaEj lunesEj
        turnoCompleto = Except.ok r ∧
        (contarAsignados solCoberturaEj 1 lunesEj "C" : ℤ) = r := by
  have hgen : aplicarRestriccionesCobertura cfgCoberturaEj 1 [lunesEj] =
      Except.ok [⟨lunesEj, "C", 1, 1⟩] := by rfl
  refine ⟨hgen, ?_⟩
  have hsat : ∀ c ∈ [(⟨lunesEj, "C", 1, 1⟩ : RestriccionCobertura)],
      satisfaceCobertura solCoberturaEj c := by
    intro c hc
    rw [List.mem_singleton] at hc
    subst hc
    show (contarAsignados solCoberturaEj 1 lunesEj "C" : ℤ) = 1
    decide
  exact cobertura_exacta cfgCoberturaEj 1 [lunesEj] _ solCoberturaEj hgen
    hsat lunesEj (List.mem_singleton.mpr rfl) ("C", turnoCompleto)
    (List.mem_singleton.mpr rfl) (by decide) (by decide)

/-! ### C7 — the equity metric -/

/-- Looking up the key just stored finds the stored value. -/
theorem buscar_actualizar_mismo {κ α : Type} [DecidableEq κ]
    (m : List (κ × α)) (k : κ) (v : α) :
    buscar (actualizar m k v) k = some v := by
  induction m with
  | nil => simp [actualizar, buscar]
  | cons p rest ih =>
    obtain ⟨k', v'⟩ := p
    unfold actualizar
    by_cases h : k' = k
    · rw [if_pos h]
      simp [buscar]
    · rw [if_neg h]
      unfold buscar
      rw [if_neg h]
      exact ih

/-- Storing under one key does not change a different key's lookup. -/
theorem buscar_actualizar_otro {κ α : Type} [DecidableEq κ]
    (m : List (κ × α)) (k k' : κ) (v : α) (h : k ≠ k') :
    buscar (actualizar m k v) k' = buscar m k' := by
  induction m with
  | nil => simp [actualizar, buscar, h]
  | cons p rest ih =>
    obtain ⟨a, b⟩ := p
    unfold actualizar
    by_cases ha : a = k
    · rw [if_pos ha]
      unfold buscar
      rw [if_neg h, if_neg (by rw [ha]; exact h)]
    · rw [if_neg ha]
      unfold buscar
      by_cases ha' : a = k'
      · rw [if_pos ha', if_pos ha']
      · rw [if_neg ha', if_neg ha']
        exact ih

/-- A successful lookup produces an entry of the list. -/
theorem buscar_mem {κ α : Type} [DecidableEq κ] {m : List (κ × α)}
    {k : κ} {v : α} (h : buscar m k = some v) : (k, v) ∈ m := by
  induction m with
  | nil => cases h
  | cons p rest ih =>
    obtain ⟨k', v'⟩ := p
    unfold buscar at h
    by_cases hk : k' = k
    · rw [if_pos hk] at h
      cases h
      subst hk
      exact List.mem_cons_self _ _
    · rw [if_neg hk] at h
      exact List.mem_cons_of_mem _ (ih h)

/-- Storing a value satisfying a predicate preserves it over all
entries. -/
theorem actualizar_preserva {κ α : Type} [DecidableEq κ] (P : α → Prop)
    (m : List (κ × α)) (k : κ) (v : α) (hm : ∀ p ∈ m, P p.2) (hv : P v) :
    ∀ p ∈ actualizar m k v, P p.2 := by
  induction m with
  | nil =>
    intro p hp
    rw [actualizar] at hp
    rcases List.mem_singleton.mp hp with rfl
    exact hv
  | cons q rest ih =>
    obtain ⟨k', v'⟩ := q
    intro p hp
    unfold actualizar at hp
    by_cases h : k' = k
    · rw [if_pos h] at hp
      rcases List.mem_cons.mp hp with rfl | hp'
      · exact hv
      · exact hm _ (List.mem_cons_of_mem _ hp')
    · rw [if_neg h] at hp
      rcases List.mem_cons.mp hp with rfl | hp'
      · exact hm _ (List.mem_cons_self _ _)
      · exact ih (fun q hq => hm _ (List.mem_cons_of_mem _ hq)) _ hp'

/-- The `horas_por_empleado` component of the extraction fold evolves by
`pasoHoras` alone. -/
theorem foldl_pasoAcumulado_horas (empleados : List Empleado)
    (turnos : List (String × Turno)) (sol : Solucion)
    (vars : List (Nat × Fecha × String)) (acc : Acumulado) :
    (vars.foldl (pasoAcumulado empleados turnos sol) acc).horas =
      vars.foldl (pasoHoras empleados turnos sol) acc.horas := by
  induction vars generalizing acc with
  | nil => rfl
  | cons v rest ih =>
    rw [List.foldl_cons, List.foldl_cons, ih]
    congr 1
    unfold pasoAcumulado pasoHoras
    by_cases hs : sol v = true
    · simp only [hs, if_true]
      cases empleados[v.1]? <;> cases buscar turnos v.2.2 <;> rfl
    · simp [hs]

/-- Lookup in the folded hour accumulator: an employee's entry exists
iff some variable contributed for its uid, and its value is the initial
value (default 0) plus the sum of the contributed durations. -/
theorem buscar_foldl_pasoHoras (empleados : List Empleado)
    (turnos : List (String × Turno)) (sol : Solucion) (uid : String)
    (vars : List (Nat × Fecha × String)) :
    ∀ m : List (String × ℚ),
      buscar (vars.foldl (pasoHoras empleados turnos sol) m) uid =
        if buscar m uid = none ∧
            (contribucionesUid empleados turnos sol uid vars).isEmpty = true
        then none
        else some (buscarD m uid 0 +
          (contribucionesUid empleados turnos sol uid vars).sum) := by
  induction vars with
  | nil =>
    intro m
    cases hb : buscar m uid <;> simp [contribucionesUid, hb, buscarD]
  | cons v rest ih =>
    intro m
    rw [List.foldl_cons]
    by_cases hs : sol v = true
    · cases hemp : empleados[v.1]? with
      | none =>
        have hstep : pasoHoras empleados turnos sol m v = m := by
          simp [pasoHoras, hs, hemp]
        have hcontr : contribucionesUid empleados turnos sol uid (v :: rest) =
            contribucionesUid empleados turnos sol uid rest := by
          simp [contribucionesUid, List.filterMap_cons, hs, hemp]
        rw [hstep, hcontr]
        exact ih m
      | some emp =>
        cases ht : buscar turnos v.2.2 with
        | none =>
          have hstep : pasoHoras empleados turnos sol m v = m := by
            simp [pasoHoras, hs, hemp, ht]
          have hcontr :
              contribucionesUid empleados turnos sol uid (v :: rest) =
              contribucionesUid empleados turnos sol uid rest := by
            simp [contribucionesUid, List.filterMap_cons, hs, hemp, ht]
          rw [hstep, hcontr]
          exact ih m
        | some turno =>
          by_cases hu : emp.uid = uid
          · subst hu
            have hstep : pasoHoras empleados turnos sol m v =
                actualizar m emp.uid
                  (buscarD m emp.uid 0 + turno.duracion_horas) := by
              simp [pasoHoras, hs, hemp, ht]
            have hcontr :
                contribucionesUid empleados turnos sol emp.uid (v :: rest) =
                turno.duracion_horas ::
                  contribucionesUid empleados turnos sol emp.uid rest := by
              simp [contribucionesUid, List.filterMap_cons, hs, hemp, ht]
            rw [hstep, ih, hcontr]
            rw [buscar_actualizar_mismo]
            simp only [List.isEmpty_cons, List.sum_cons, and_false,
              if_false, false_and, reduceCtorEq]
            simp [buscarD, buscar_actualizar_mismo, add_assoc]
          · have hstep : pasoHoras empleados turnos sol m v =
                actualizar m emp.uid
                  (buscarD m emp.uid 0 + turno.duracion_horas) := by
              simp [pasoHoras, hs, hemp, ht]
            have hcontr :
                contribucionesUid empleados turnos sol uid (v :: rest) =
                contribucionesUid empleados turnos sol uid rest := by
              simp [contribucionesUid, List.filterMap_cons, hs, hemp, ht, hu]
            rw [hstep, ih, hcontr]
            rw [buscar_actualizar_otro _ _ _ _ hu]
            simp [buscarD, buscar_actualizar_otro _ _ _ _ hu]
    · have hstep : pasoHoras empleados turnos sol m v = m := by
        simp [pasoHoras, hs]
      have hcontr : contribucionesUid empleados turnos sol uid (v :: rest) =
          contribucionesUid empleados turnos sol uid rest := by
        simp [contribucionesUid, List.filterMap_cons, hs]
      rw [hstep, hcontr]
      exact ih m

/-- With a catalog of non-negative durations, every value in the folded
hour accumulator is non-negative. -/
theorem foldl_pasoHoras_nonneg (empleados : List Empleado)
    {turnos : List (String × Turno)} (sol : Solucion)
    (hnn : ∀ p ∈ turnos, 0 ≤ p.2.duracion_horas) :
    ∀ (vars : List (Nat × Fecha × String)) (m : List (String × ℚ)),
      (∀ p ∈ m, 0 ≤ p.2) →
      ∀ p ∈ vars.foldl (pasoHoras empleados turnos sol) m, 0 ≤ p.2 := by
  intro vars
  induction vars with
  | nil =>
    intro m hm
    simpa using hm
  | cons v rest ih =>
    intro m hm
    rw [List.foldl_cons]
    apply ih
    by_cases hs : sol v = true
    · cases hemp : empleados[v.1]? with
      | none =>
        have hstep : pasoHoras empleados turnos sol m v = m := by
          simp [pasoHoras, hs, hemp]
        rw [hstep]
        exact hm
      | some emp =>
        cases ht : buscar turnos v.2.2 with
        | none =>
          have hstep : pasoHoras empleados turnos sol m v = m := by
            simp [pasoHoras, hs, hemp, ht]
          rw [hstep]
          exact hm
        | some turno =>
          have hstep : pasoHoras empleados turnos sol m v =
              actualizar m emp.uid
                (buscarD m emp.uid 0 + turno.duracion_horas) := by
            simp [pasoHoras, hs, hemp, ht]
          rw [hstep]
          apply actualizar_preserva _ _ _ _ hm
          have hd : 0 ≤ turno.duracion_horas := hnn _ (buscar_mem ht)
          have hb : 0 ≤ buscarD m emp.uid 0 := by
            unfold buscarD
            cases hbb : buscar m emp.uid with
            | none => simp
            | some q => simpa using hm _ (buscar_mem hbb)
          exact add_nonneg hb hd
    · have hstep : pasoHoras empleados turnos sol m v = m := by
        simp [pasoHoras, hs]
      rw [hstep]
      exact hm

/-- Over a vector of non-negative reals the code's clamped equity
(`max 0 (min 1 ...)`, with 1 for an empty vector or non-positive mean)
coincides with the spec formula `max(0, 1 − σ/μ)` (1 when μ = 0). -/
theorem equidadDe_eq_spec (hs : List ℝ) (hnn : ∀ h ∈ hs, 0 ≤ h) :
    equidadDe hs = equidadSegunSpec hs := by
  unfold equidadDe equidadSegunSpec
  by_cases hempty : hs.isEmpty = true
  · have hnil : hs = [] := List.isEmpty_iff.mp hempty
    subst hnil
    simp [promedio]
  · rw [if_neg hempty]
    have hmu0 : 0 ≤ promedio hs := by
      apply div_nonneg (List.sum_nonneg hnn)
      positivity
    by_cases hpos : 0 < promedio hs
    · rw [if_pos hpos, if_neg (ne_of_gt hpos)]
      have hsig : 0 ≤ desviacion hs := Real.sqrt_nonneg _
      have hle : 1 - desviacion hs / promedio hs ≤ 1 := by
        have : 0 ≤ desviacion hs / promedio hs :=
          div_nonneg hsig (le_of_lt hpos)
        linarith
      rw [min_eq_right hle]
    · have hmu : promedio hs = 0 := le_antisymm (not_lt.mp hpos) hmu0
      rw [if_neg hpos, if_pos hmu]
      norm_num

/-- C7 counterexample: the claim computes equity over the hour vector of
*all* employees, a zero-hours employee contributing a zero entry.  With
two employees of whom only E1 receives a (single, eight-hour) shift, the
code's vector is `[8]` (E2 never enters `horas_por_empleado`), so the
reported equity is 1; the claim's formula over the all-employee vector
`[8, 0]` gives `max(0, 1 − 4/4) = 0`. -/
theorem equidad_contraejemplo :
    (construirResultado [empleadoE1, empleadoE2] [("C", turnoCompleto)]
        (crearVariables 2 [lunesEj] [("C", turnoCompleto)])
        (fun v => decide (v.1 = 0))
        EstadoSolver.optimal).metricas.distribucion_equitativa = 1
    ∧ equidadSegunSpec [(8 : ℝ), 0] = 0 := by
  constructor
  · have hv : crearVariables 2 [lunesEj] [("C", turnoCompleto)] =
        [(0, lunesEj, "C"), (1, lunesEj, "C")] := by decide
    have hacc : construirAcumulado [empleadoE1, empleadoE2]
        [("C", turnoCompleto)] [(0, lunesEj, "C"), (1, lunesEj, "C")]
        (fun v => decide (v.1 = 0)) =
        ⟨[("E1", [(lunesEj, "C")])], [("E1", 8)], [], []⟩ := by
      simp [construirAcumulado, pasoAcumulado, buscar, buscarD, actualizar,
        empleadoE1, empleadoE2, turnoCompleto]
    show equidadDe ((construirAcumulado [empleadoE1, empleadoE2]
        [("C", turnoCompleto)]
        (crearVariables 2 [lunesEj] [("C", turnoCompleto)])
        (fun v => decide (v.1 = 0))).horas.map (fun p => (p.2 : ℝ))) = 1
    rw [hv, hacc]
    have hprom : promedio [((8 : ℚ) : ℝ)] = 8 := by
      norm_num [promedio]
    have hvar : varianza [((8 : ℚ) : ℝ)] = 0 := by
      norm_num [varianza, promedio]
    have hdesv : desviacion [((8 : ℚ) : ℝ)] = 0 := by
      rw [desviacion, hvar, Real.sqrt_zero]
    unfold equidadDe
    rw [if_neg (by simp)]
    show max 0 (min 1 (if 0 < promedio [((8 : ℚ) : ℝ)] then
      1 - desviacion [((8 : ℚ) : ℝ)] / promedio [((8 : ℚ) : ℝ)] else 1)) = 1
    rw [hprom, hdesv]
    norm_num
  · have hprom : promedio [(8 : ℝ), 0] = 4 := by
      norm_num [promedio]
    have hvar : varianza [(8 : ℝ), 0] = 16 := by
      rw [varianza, hprom]
      norm_num
    have hdesv : desviacion [(8 : ℝ), 0] = 4 := by
      rw [desviacion, hvar, show (16 : ℝ) = 4 ^ 2 by norm_num,
        Real.sqrt_sq (by norm_num : (0 : ℝ) ≤ 4)]
    unfold equidadSegunSpec
    rw [if_neg (by rw [hprom]; norm_num), hprom, hdesv]
    norm_num

/-- C7 amended: on a successful run the reported equity equals
`max(0, 1 − σ/μ)` (and 1 when μ = 0) computed over the per-employee
total-hours vector of the employees with *at least one recorded
assignment* — an employee with no assignments contributes no entry at
all, not a zero entry: the hour map holds a uid exactly when some
variable valued 1 resolves to that uid, and its value is the sum of the
durations of those shifts. -/
theorem equidad_caracterizacion (empleados : List Empleado)
    (turnos : List (String × Turno)) (vars : List (Nat × Fecha × String))
    (sol : Solucion) (status : EstadoSolver)
    (hnn : ∀ p ∈ turnos, 0 ≤ p.2.duracion_horas) :
    (construirResultado empleados turnos vars sol
        status).metricas.distribucion_equitativa =
      equidadSegunSpec ((construirAcumulado empleados turnos vars
        sol).horas.map (fun p => (p.2 : ℝ)))
    ∧ ∀ uid, buscar (construirAcumulado empleados turnos vars sol).horas uid =
        (if (contribucionesUid empleados turnos sol uid vars).isEmpty = true
         then none
         else some (contribucionesUid empleados turnos sol uid vars).sum) := by
  constructor
  · show equidadDe ((construirAcumulado empleados turnos vars
        sol).horas.map (fun p => (p.2 : ℝ))) = _
    apply equidadDe_eq_spec
    intro h hh
    obtain ⟨p, hp, rfl⟩ := List.mem_map.mp hh
    have hq : 0 ≤ p.2 := by
      have hph : p ∈ vars.foldl (pasoHoras empleados turnos sol) [] := by
        have := foldl_pasoAcumulado_horas empleados turnos sol vars
          ⟨[], [], [], []⟩
        unfold construirAcumulado at hp
        rw [this] at hp
        exact hp
      exact foldl_pasoHoras_nonneg empleados sol hnn vars []
        (by intro q hq; cases hq) p hph
    exact_mod_cast hq
  · intro uid
    have hfold : (construirAcumulado empleados turnos vars sol).horas =
        vars.foldl (pasoHoras empleados turnos sol) [] :=
      foldl_pasoAcumulado_horas empleados turnos sol vars ⟨[], [], [], []⟩
    rw [hfold, buscar_foldl_pasoHoras]
    by_cases hE : (contribucionesUid empleados turnos sol uid vars).isEmpty = true
    · simp [hE, buscar]
    · simp [hE, buscar, buscarD]

/-- C7 amended, witness: a single employee assigned the single
eight-hour shift; the reported equity equals the spec formula over the
recorded one-entry vector. -/
theorem equidad_caracterizacion_testigo :
    (construirResultado [empleadoE1] [("C", turnoCompleto)]
        [(0, lunesEj, "C")] (fun _ => true)
        EstadoSolver.optimal).metricas.distribucion_equitativa =
      equidadSegunSpec ((construirAcumulado [empleadoE1]
        [("C", turnoCompleto)] [(0, lunesEj, "C")]
        (fun _ => true)).horas.map (fun p => (p.2 : ℝ))) :=
  (equidad_caracterizacion [empleadoE1] [("C", turnoCompleto)]
    [(0, lunesEj, "C")] (fun _ => true) EstadoSolver.optimal
    (by
      intro p hp
      rcases List.mem_singleton.mp hp with rfl
      norm_num [turnoCompleto])).1
